import Mathlib

/-!
Verification of the deeplx relay core against its natural-language
specification.  Each section shallowly embeds one source module:

* Circuit breaker        — src/unnamed/part_004 (CircuitBreaker)
* Retry orchestrator     — src/src/lib/proxyManager.ts (retryWithBackoff,
                           DEFAULT_RETRY_CONFIG; the file also carries the
                           retryLogic and config modules)
* Request builder        — src/unnamed/part_007 (buildRequestParams,
                           countLetterI, getTimestamp)
* Response envelope      — src/unnamed/part_007 (createStandardResponse)
* Error handler          — src/src/lib/errorHandler.ts (sanitizeStatusCode,
                           createErrorResponse)
* Query orchestrator     — src/unnamed/part_007 (query)
* Rate limiter           — src/src/lib/rateLimit.ts (checkRateLimit)
* Cache store            — src/src/lib/cache.ts (getCachedTranslation)

JavaScript numbers are modelled as ℕ/ℤ where the code only ever holds
integers, as ℚ where fractional token counts occur, and as `Option ℚ`
(`none` for undefined/NaN) in the rate limiter, whose limits are NaN in
the source.  Stateful methods become explicit state-passing functions;
the nondeterministic inputs (wall clock, random draws, fetch outcomes)
become parameters.
-/

namespace DeepLX

/-! ## Circuit breaker (src/unnamed/part_004)

States CLOSED / OPEN / HALF_OPEN.  `execute` is modelled as a function of
the current state, the wall clock `now` and the outcome the wrapped
operation would produce; it returns the new state, the visible result and
whether the operation was invoked. -/

inductive CBStatus
  | closed
  | opened
  | halfOpen
deriving DecidableEq

structure CBState where
  status : CBStatus
  failureCount : ℕ
  lastFailureTime : ℤ
  successCount : ℕ
deriving DecidableEq

def FAILURE_THRESHOLD : ℕ := 5

def RECOVERY_TIMEOUT : ℤ := 30000

def SUCCESS_THRESHOLD : ℕ := 3

/-- Model of `CircuitBreaker.onSuccess` (part_004 lines 67-77). -/
def onSuccess (s : CBState) : CBState :=
  match s.status with
  | .halfOpen =>
    let sc := s.successCount + 1
    if SUCCESS_THRESHOLD ≤ sc then
      { s with status := .closed, successCount := sc, failureCount := 0 }
    else
      { s with successCount := sc }
  | .closed => { s with failureCount := 0 }
  | .opened => s

/-- Model of `CircuitBreaker.onFailure` (part_004 lines 84-91). -/
def onFailure (s : CBState) (now : ℤ) : CBState :=
  let fc := s.failureCount + 1
  if FAILURE_THRESHOLD ≤ fc then
    { s with failureCount := fc, lastFailureTime := now, status := .opened }
  else
    { s with failureCount := fc, lastFailureTime := now }

inductive ExecResult (A E : Type)
  | circuitOpen
  | opOk (a : A)
  | opErr (e : E)
deriving DecidableEq

/-- The try/catch body of `execute`: invoke the operation, dispatch to
`onSuccess` / `onFailure`, and rethrow the error or return the result. -/
def runOp {A E : Type} (s : CBState) (now : ℤ) (outcome : Except E A) :
    CBState × ExecResult A E × Bool :=
  match outcome with
  | .ok a => (onSuccess s, .opOk a, true)
  | .error e => (onFailure s now, .opErr e, true)

/-- Model of `CircuitBreaker.execute` (part_004 lines 42-60).  The final
Bool records whether the wrapped operation was invoked. -/
def execute {A E : Type} (s : CBState) (now : ℤ) (outcome : Except E A) :
    CBState × ExecResult A E × Bool :=
  match s.status with
  | .opened =>
    if RECOVERY_TIMEOUT < now - s.lastFailureTime then
      runOp { s with status := .halfOpen, successCount := 0 } now outcome
    else
      (s, .circuitOpen, false)
  | _ => runOp s now outcome

def cbInit : CBState := ⟨.closed, 0, 0, 0⟩

/-- One `execute` call viewed as a state transition, with the operation
outcome abstracted to success/failure. -/
def cbStep (s : CBState) (now : ℤ) (success : Bool) : CBState :=
  (execute (A := Unit) (E := Unit) s now
    (if success then Except.ok () else Except.error ())).1

/-- States of a breaker reachable from the freshly constructed instance by
any sequence of `execute` calls. -/
inductive Reachable : CBState → Prop
  | init : Reachable cbInit
  | step (s : CBState) (now : ℤ) (success : Bool) (h : Reachable s) :
      Reachable (cbStep s now success)

/-- In every reachable Open or HalfOpen state the failure counter has
already met the failure threshold: it is only reset on closing. -/
theorem reachable_threshold_met (s : CBState) (h : Reachable s) :
    (s.status = .opened ∨ s.status = .halfOpen) →
    FAILURE_THRESHOLD ≤ s.failureCount := by
  induction h with
  | init => rintro (h | h) <;> simp [cbInit] at h
  | step s now success _ ih =>
    unfold cbStep execute
    cases hs : s.status <;> cases success <;>
        simp only [runOp, onSuccess, onFailure, hs] <;>
        split_ifs <;>
        simp_all [FAILURE_THRESHOLD, SUCCESS_THRESHOLD] <;>
        omega

/-- C6: in every reachable state of a CircuitBreaker, if the state is
HalfOpen then a single failed operation transitions the breaker to Open:
the failure counter of any reachable HalfOpen state already meets the
failure threshold, so the probe failure trips the breaker. -/
theorem halfOpen_single_failure_opens (s : CBState) (h : Reachable s)
    (hs : s.status = .halfOpen) (now : ℤ) :
    (cbStep s now false).status = .opened := by
  have hfc : FAILURE_THRESHOLD ≤ s.failureCount := reachable_threshold_met s h (Or.inr hs)
  have hf : FAILURE_THRESHOLD ≤ s.failureCount + 1 := le_trans hfc (Nat.le_succ _)
  unfold cbStep execute
  simp only [hs]
  simp [runOp, onFailure, hf]

/-- A concrete reachable HalfOpen state: five failures at time 0 open the
breaker, one successful probe at time 30001 moves it to HalfOpen. -/
theorem reachable_halfOpen_example :
    Reachable ⟨CBStatus.halfOpen, 5, 0, 1⟩ := by
  have h0 : Reachable cbInit := Reachable.init
  have h1 := Reachable.step _ 0 false h0
  have h2 := Reachable.step _ 0 false h1
  have h3 := Reachable.step _ 0 false h2
  have h4 := Reachable.step _ 0 false h3
  have h5 := Reachable.step _ 0 false h4
  have h6 := Reachable.step _ 30001 true h5
  exact h6

/-- C6 witness: the theorem applied to the concrete reachable HalfOpen
state ⟨HalfOpen, 5, 0, 1⟩ at time 40000. -/
theorem halfOpen_single_failure_opens_witness :
    (cbStep ⟨CBStatus.halfOpen, 5, 0, 1⟩ 40000 false).status = CBStatus.opened :=
  halfOpen_single_failure_opens ⟨CBStatus.halfOpen, 5, 0, 1⟩
    reachable_halfOpen_example rfl 40000

/-! ## Retry orchestrator (src/src/lib/proxyManager.ts lines 194-219)

`retryWithBackoff` loops `for (attempt = 0; attempt < maxRetries; attempt++)`,
invoking the operation, sleeping `initialDelay * backoffFactor ^ attempt`
on a retryable failure, rethrowing a non-retryable error immediately, and
after the loop rethrowing `lastError` (which is still `undefined` when the
loop never ran).  The operation is modelled as a map from attempt index to
outcome; the trace records the result, the number of invocations and the
list of backoff delays slept. -/

structure RetryOptions (E : Type) where
  maxRetries : ℤ
  initialDelay : ℚ
  backoffFactor : ℚ
  isRetryable : E → Bool

/-- `result = Except.error none` models the rethrow of an `undefined`
`lastError` when the loop body never executed. -/
structure RetryTrace (A E : Type) where
  result : Except (Option E) A
  calls : ℕ
  delays : List ℚ

def retryLoop {A E : Type} (op : ℕ → Except E A) (retr : E → Bool)
    (d0 f : ℚ) : ℕ → ℕ → Option E → RetryTrace A E
  | _, 0, last => ⟨.error last, 0, []⟩
  | a, n + 1, _ =>
    match op a with
    | .ok v => ⟨.ok v, 1, []⟩
    | .error e =>
      if retr e then
        let t := retryLoop op retr d0 f (a + 1) n (some e)
        ⟨t.result, t.calls + 1, d0 * f ^ a :: t.delays⟩
      else
        ⟨.error (some e), 1, []⟩

/-- Model of `retryWithBackoff` (proxyManager.ts lines 194-219).  The loop
bound `attempt < maxRetries` gives `maxRetries.toNat` iterations. -/
def retryWithBackoff {A E : Type} (op : ℕ → Except E A) (o : RetryOptions E) :
    RetryTrace A E :=
  retryLoop op o.isRetryable o.initialDelay o.backoffFactor 0 o.maxRetries.toNat none

def alwaysFail : ℕ → Except Unit Unit := fun _ => Except.error ()

def failNThenOk (n : ℕ) : ℕ → Except Unit Unit :=
  fun a => if a < n then Except.error () else Except.ok ()

def retrAll : Unit → Bool := fun _ => true

/-- C1 evaluated on the code: the loop runs `attempt` from 0 to
`maxRetries - 1`, so `maxRetries` total attempts, not `maxRetries + 1`.
With maxRetries = 0 the operation is never invoked and the undefined last
error is rethrown (the repository's retryLogic tests expect exactly one
invocation); with maxRetries = 3 an operation failing retryably three
times and then succeeding is invoked only 3 times and the run still fails
(the tests expect 4 invocations and success). -/
theorem retryWithBackoff_attempt_count_bug :
    (retryWithBackoff alwaysFail ⟨0, 1000, 2, retrAll⟩).calls = 0 ∧
    (retryWithBackoff alwaysFail ⟨0, 1000, 2, retrAll⟩).result = Except.error none ∧
    (retryWithBackoff (failNThenOk 3) ⟨3, 1000, 2, retrAll⟩).calls = 3 ∧
    (retryWithBackoff (failNThenOk 3) ⟨3, 1000, 2, retrAll⟩).result = Except.error (some ()) :=
  ⟨rfl, rfl, rfl, rfl⟩

/-- C3 evaluated on the code: the backoff delay before the next attempt is
`initialDelay * backoffFactor ^ attempt` with no cap — `RetryOptions` has
no maxDelay field.  A run with initialDelay = 1000, backoffFactor = 2 and
three retryable failures sleeps 1000, 2000 and 4000 ms, exceeding the
100 ms cap the repository's own "should respect max delay" test demands. -/
theorem retryWithBackoff_delays_uncapped :
    (retryWithBackoff alwaysFail ⟨3, 1000, 2, retrAll⟩).delays = [1000, 2000, 4000] := by
  norm_num [retryWithBackoff, retryLoop, alwaysFail, retrAll]

/-! ## Request builder (src/unnamed/part_007 lines 209-293)

`buildRequestParams` draws the wall clock and a random component and
computes the request id; `countLetterI` counts occurrences of the letter
i; `getTimestamp` applies the upstream timestamp quirk.  `Date.now()` and
`Math.floor(Math.random() * 1000000)` become explicit ℕ parameters. -/

/-- Model of the request id computation in `buildRequestParams`
(part_007 lines 211-216): `Math.floor((timestamp % 100000000) +
(randomComponent % 100000000))`, where `randomComponent =
Math.floor(Math.random() * 1000000)` lies in [0, 999999]. -/
def requestIdOf (timestamp randomComponent : ℕ) : ℕ :=
  timestamp % 100000000 + randomComponent % 100000000

/-- C4 evaluated on the code: at wall clock 1700000000000 ms (a real
instant, ≡ 0 mod 10^8) with random component 0, the request id is 0 — a
single digit, outside the 8-9 digit range [10000000, 999999999] that both
the claim and the source comment ("Ensure ID is within a safe range (8-9
digits)") promise.  No folding into that range exists in the code. -/
theorem requestId_not_8_digits :
    requestIdOf 1700000000000 0 = 0 ∧ (0 : ℕ) < 10000000 := by
  constructor
  · rfl
  · decide

/-- Model of `countLetterI` (part_007 lines 245-247):
`text.split("i").length - 1` is the number of occurrences of i. -/
def countLetterI (translateText : String) : ℕ :=
  translateText.data.count 'i'

def MAX_SAFE_INTEGER : ℕ := 9007199254740991

/-- Model of `getTimestamp` (part_007 lines 256-293).  The wall clock is
the explicit `timestamp` parameter; the try/catch never fires (the body is
pure arithmetic).  `Math.max(0, letterCount || 0)` is the identity on ℕ. -/
def getTimestamp (timestamp : ℕ) (letterCount : ℕ) : ℕ :=
  let safeLetterCount := max 0 letterCount
  if safeLetterCount = 0 then timestamp
  else
    let modValue := safeLetterCount + 1
    if modValue ≤ 0 ∨ modValue > 1000 then timestamp
    else
      let modifiedTimestamp := timestamp - timestamp % modValue + modValue
      if 0 < modifiedTimestamp ∧ modifiedTimestamp ≤ MAX_SAFE_INTEGER ∧
          timestamp - 1000 ≤ modifiedTimestamp then
        modifiedTimestamp
      else timestamp

/-- The timestamp placed in the payload by `buildRequestBody`
(part_007 lines 341-342): `getTimestamp(countLetterI(text))`. -/
def buildTimestamp (text : String) (raw : ℕ) : ℕ :=
  getTimestamp raw (countLetterI text)

/-- C5 fails on the code: for a text with 1000 occurrences of i (so
m = 1001 > 1000) the guard `modValue > 1000` returns the raw wall clock
unmodified, while the claim demands `raw - raw % m + m`, which never
equals raw. -/
theorem getTimestamp_thousand_i_counterexample :
    buildTimestamp (String.mk (List.replicate 1000 'i')) 1700000000000 = 1700000000000 ∧
    1700000000000 - 1700000000000 % (countLetterI (String.mk (List.replicate 1000 'i')) + 1)
      + (countLetterI (String.mk (List.replicate 1000 'i')) + 1) ≠ 1700000000000 := by
  have hc : countLetterI (String.mk (List.replicate 1000 'i')) = 1000 := by
    unfold countLetterI
    rw [show (String.mk (List.replicate 1000 'i')).data = List.replicate 1000 'i' from rfl,
      List.count_replicate_self]
  constructor
  · unfold buildTimestamp
    rw [hc]
    simp [getTimestamp]
  · rw [hc]
    decide

/-- C5 amended: the built timestamp equals the raw wall clock when the
text has no i; when it has k occurrences with 1 ≤ k ≤ 999 and the
modified value stays within the JavaScript safe-integer range, it equals
raw - (raw mod m) + m with m = k + 1; when k ≥ 1000 the quirk is skipped
and the raw wall clock is used. -/
theorem getTimestamp_spec (text : String) (raw : ℕ) :
    (countLetterI text = 0 → buildTimestamp text raw = raw) ∧
    (0 < countLetterI text → countLetterI text ≤ 999 →
      raw - raw % (countLetterI text + 1) + (countLetterI text + 1) ≤ MAX_SAFE_INTEGER →
      buildTimestamp text raw
        = raw - raw % (countLetterI text + 1) + (countLetterI text + 1)) ∧
    (1000 ≤ countLetterI text → buildTimestamp text raw = raw) := by
  set k := countLetterI text with hk
  refine ⟨?_, ?_, ?_⟩
  · intro h0
    simp [buildTimestamp, getTimestamp, ← hk, h0]
  · intro hpos hle hmsi
    have hmod : raw % (k + 1) < k + 1 := Nat.mod_lt _ (by omega)
    unfold buildTimestamp getTimestamp
    rw [← hk]
    simp only [Nat.zero_max]
    rw [if_neg (by omega), if_neg (by omega), if_pos (by omega)]
  · intro hge
    unfold buildTimestamp getTimestamp
    rw [← hk]
    simp only [Nat.zero_max]
    rw [if_neg (by omega), if_pos (by omega)]

/-- C5 amended witness: the text "hi" has one i, so m = 2 and the
timestamp 1700000000003 becomes 1700000000004. -/
theorem getTimestamp_spec_witness :
    buildTimestamp "hi" 1700000000003 = 1700000000004 := by
  have h := (getTimestamp_spec "hi" 1700000000003).2.1 (by decide) (by decide) (by decide)
  rw [h]
  decide

/-! ## Response envelope (src/unnamed/part_007 lines 72-100)

`createStandardResponse` builds the public `ResponseParams` record.
Optional JavaScript arguments become `Option` parameters; the
`Math.floor(Math.random() * 10000000000)` fallback id becomes the
explicit `randomId` parameter; `x || d` on strings treats the empty
string as falsy. -/

structure ResponseParams where
  code : ℤ
  data : Option String
  id : ℕ
  source_lang : Option String
  target_lang : Option String
deriving DecidableEq

/-- JavaScript `v || dflt` for an optional string argument. -/
def jsOrString (v : Option String) (dflt : String) : String :=
  match v with
  | some s => if s = "" then dflt else s
  | none => dflt

/-- Model of `createStandardResponse` (part_007 lines 72-100). -/
def createStandardResponse (code : ℤ) (data : Option String) (id : Option ℕ)
    (source_lang target_lang : Option String) (randomId : ℕ) : ResponseParams :=
  let responseId : ℕ :=
    match id with
    | some i => if i = 0 then randomId else i
    | none => randomId
  if code ≠ 200 then
    { code := code, data := none, id := responseId,
      source_lang := none, target_lang := none }
  else
    { code := code, data := data, id := responseId,
      source_lang := some ((jsOrString source_lang "AUTO").toUpper),
      target_lang := some ((jsOrString target_lang "EN").toUpper) }

/-- C7: every `createStandardResponse` call with code ≠ 200 yields
data = null, source_lang = null and target_lang = null, while the code is
preserved and a numeric id is always present. -/
theorem createStandardResponse_non200_nulls (code : ℤ) (data : Option String)
    (id : Option ℕ) (source_lang target_lang : Option String) (randomId : ℕ)
    (h : code ≠ 200) :
    (createStandardResponse code data id source_lang target_lang randomId).data = none ∧
    (createStandardResponse code data id source_lang target_lang randomId).source_lang = none ∧
    (createStandardResponse code data id source_lang target_lang randomId).target_lang = none ∧
    (createStandardResponse code data id source_lang target_lang randomId).code = code := by
  simp [createStandardResponse, h]

/-- C7 witness: the theorem at code 429 with concrete arguments. -/
theorem createStandardResponse_non200_nulls_witness :
    (createStandardResponse 429 (some "hello") (some 7) (some "en") (some "zh") 99).data
      = none ∧
    (createStandardResponse 429 (some "hello") (some 7) (some "en") (some "zh") 99).source_lang
      = none ∧
    (createStandardResponse 429 (some "hello") (some 7) (some "en") (some "zh") 99).target_lang
      = none ∧
    (createStandardResponse 429 (some "hello") (some 7) (some "en") (some "zh") 99).code
      = 429 :=
  createStandardResponse_non200_nulls 429 (some "hello") (some 7) (some "en") (some "zh") 99
    (by decide)

/-! ## Error handler (src/src/lib/errorHandler.ts lines 40-156)

Loosely typed JavaScript errors carry optional numeric `status` and
`code` fields; `createErrorResponse` derives the HTTP status through
`sanitizeStatusCode`.  `if (errorDetails.status)` is JavaScript
truthiness: absent or 0 is falsy. -/

structure JsError where
  status : Option ℤ
  code : Option ℤ
deriving DecidableEq

/-- Model of `isValidHttpStatusCode` (errorHandler.ts lines 40-48) on an
integer-valued field. -/
def isValidHttpStatusCode (code : ℤ) : Bool :=
  200 ≤ code ∧ code ≤ 599

/-- Model of `sanitizeStatusCode` (errorHandler.ts lines 57-73).  The
literal `code === 5` branch also maps to 500, like the default. -/
def sanitizeStatusCode (code : ℤ) : ℤ :=
  if isValidHttpStatusCode code then code
  else if code = 5 then 500
  else 500

def jsTruthyInt : Option ℤ → Bool
  | none => false
  | some v => v != 0

/-- The `httpStatus` computed by `createErrorResponse`
(errorHandler.ts lines 136-156). -/
def createErrorResponseStatus (e : JsError) : ℤ :=
  if jsTruthyInt e.status then sanitizeStatusCode (e.status.getD 0)
  else if jsTruthyInt e.code then sanitizeStatusCode (e.code.getD 0)
  else 500

theorem sanitizeStatusCode_range (code : ℤ) :
    200 ≤ sanitizeStatusCode code ∧ sanitizeStatusCode code ≤ 599 := by
  unfold sanitizeStatusCode isValidHttpStatusCode
  split_ifs with h1 h2 <;> simp_all

theorem createErrorResponseStatus_range (e : JsError) :
    200 ≤ createErrorResponseStatus e ∧ createErrorResponseStatus e ≤ 599 := by
  unfold createErrorResponseStatus
  split_ifs <;> first
    | exact sanitizeStatusCode_range _
    | exact ⟨by norm_num, by norm_num⟩

/-! ## Query orchestrator (src/unnamed/part_007 lines 382-569)

`normalizeLanguageCode` and the result-shaping paths of `query`: the
missing-text guard returns 400; a successful upstream response becomes a
code-200 envelope; any thrown error is funnelled through
`createErrorResponse` into a non-200 envelope.  The upstream interaction
of a run is abstracted into the final outcome `Except JsError
SuccessShape` it produced. -/

def languageMap : List (String × String) :=
  [("chinese", "ZH"), ("english", "EN"), ("spanish", "ES"), ("french", "FR"),
   ("german", "DE"), ("italian", "IT"), ("japanese", "JA"), ("portuguese", "PT"),
   ("russian", "RU"), ("dutch", "NL"), ("polish", "PL"), ("swedish", "SV"),
   ("danish", "DA"), ("norwegian", "NB"), ("finnish", "FI"), ("czech", "CS"),
   ("slovak", "SK"), ("slovenian", "SL"), ("estonian", "ET"), ("latvian", "LV"),
   ("lithuanian", "LT"), ("hungarian", "HU"), ("romanian", "RO"),
   ("bulgarian", "BG"), ("greek", "EL"), ("turkish", "TR"), ("ukrainian", "UK"),
   ("korean", "KO"), ("indonesian", "ID")]

/-- Model of `normalizeLanguageCode` (part_007 lines 151-198). -/
def normalizeLanguageCode (langCode : String) : String :=
  if langCode = "" ∨ langCode.toLower = "auto" then "auto"
  else
    let normalized := langCode.toLower
    match languageMap.lookup normalized with
    | some mapped => mapped
    | none => normalized.toUpper

/-- The success shape extracted from a parsed upstream response:
`result.texts[0].text`, `id` and `result.lang`. -/
structure SuccessShape where
  text : String
  id : ℕ
  lang : String
deriving DecidableEq

/-- JavaScript `s || dflt` on a string. -/
def jsOr (s dflt : String) : String :=
  if s = "" then dflt else s

/-- Model of the result shaping of `query` (part_007 lines 382-569): the
missing-text guard (lines 386-394), the code-200 envelope on a successful
run (lines 548-554) and the catch-all error envelope (lines 556-568).
`outcome` is the final outcome of the retry loop. -/
def queryModel (text source_lang target_lang : String)
    (outcome : Except JsError SuccessShape) (randomId : ℕ) : ResponseParams :=
  if text = "" then
    createStandardResponse 400 none none
      (some (normalizeLanguageCode (jsOr source_lang "auto")))
      (some (normalizeLanguageCode (jsOr target_lang "en"))) randomId
  else
    match outcome with
    | .ok s =>
      createStandardResponse 200 (some s.text) (some s.id)
        (some s.lang.toUpper) (some (normalizeLanguageCode target_lang)) randomId
    | .error e =>
      createStandardResponse (createErrorResponseStatus e) none none
        (some (normalizeLanguageCode (jsOr source_lang "auto")))
        (some (normalizeLanguageCode (jsOr target_lang "en"))) randomId

theorem createStandardResponse_code (code : ℤ) (data : Option String)
    (id : Option ℕ) (source_lang target_lang : Option String) (randomId : ℕ) :
    (createStandardResponse code data id source_lang target_lang randomId).code = code := by
  unfold createStandardResponse
  split_ifs <;> rfl

/-- C10: the query orchestrator is total in the model — every path yields
a `ResponseParams` whose code lies in [200, 599]; in particular an error
carrying the upstream protocol code 1156049, which is not a valid HTTP
status, is mapped to 500. -/
theorem queryModel_code_range (text source_lang target_lang : String)
    (outcome : Except JsError SuccessShape) (randomId : ℕ) :
    (200 ≤ (queryModel text source_lang target_lang outcome randomId).code ∧
      (queryModel text source_lang target_lang outcome randomId).code ≤ 599) ∧
    (queryModel "x" source_lang target_lang
      (Except.error ⟨none, some 1156049⟩) randomId).code = 500 := by
  constructor
  · unfold queryModel
    split_ifs
    · rw [createStandardResponse_code]; exact ⟨by norm_num, by norm_num⟩
    · cases outcome with
      | ok s => rw [createStandardResponse_code]; exact ⟨by norm_num, by norm_num⟩
      | error e => rw [createStandardResponse_code]; exact createErrorResponseStatus_range e
  · unfold queryModel
    rw [if_neg (by decide), createStandardResponse_code]
    decide

/-! ## One attempt of the query retry loop (src/unnamed/part_007 lines 402-466)

The body of the closure handed to `retryWithBackoff`: select an endpoint,
run the combined rate-limit check when an env is present (throwing a
code-429 error on denial), then perform the transport call via
`makeRequest` and classify its outcome.  The breaker state registered for
the selected endpoint (part_004 `getCircuitBreaker`) is carried as the
`cb` parameter; the attempt body in the source contains no reference to
it — `fetch` is called directly, not through `CircuitBreaker.execute` —
and the model reflects that.  `transportCalls` counts fetch invocations
by the attempt. -/

inductive FetchOut
  | httpOk (s : SuccessShape)
  | httpErr (status : ℤ)
  | jsonErr
  | apiErr (code : ℤ)
  | badShape
  | aborted
deriving DecidableEq

structure AttemptTrace where
  transportCalls : ℕ
  outcome : Except JsError ResponseParams

/-- Model of one attempt of `query` (part_007 lines 402-466 with the
response handling through line 554).  `hasEnv`/`rlAllowed` model the
combined rate-limit gate; `fetch` is the outcome the transport would
produce; `cb` is the endpoint's registered breaker state, never consulted
by the source. -/
def queryAttempt (cb : CBState) (hasEnv rlAllowed : Bool) (fetch : FetchOut)
    (target_lang : String) (randomId : ℕ) : AttemptTrace :=
  if hasEnv ∧ ¬ rlAllowed then
    ⟨0, .error ⟨none, some 429⟩⟩
  else
    match fetch with
    | .aborted => ⟨1, .error ⟨some 408, none⟩⟩
    | .httpErr status => ⟨1, .error ⟨some status, none⟩⟩
    | .jsonErr => ⟨1, .error ⟨none, some 500⟩⟩
    | .apiErr code => ⟨1, .error ⟨none, some code⟩⟩
    | .badShape => ⟨1, .error ⟨none, some 500⟩⟩
    | .httpOk s =>
      ⟨1, .ok (createStandardResponse 200 (some s.text) (some s.id)
        (some s.lang.toUpper) (some (normalizeLanguageCode target_lang)) randomId)⟩

def cbOpenFresh : CBState := ⟨.opened, 5, 0, 0⟩

/-- C2 fails on the code: with the endpoint's circuit breaker Open and
only 1000 ms < recoveryTimeout elapsed since lastFailureTime — a state in
which `CircuitBreaker.execute` would reject without invoking its
operation — an attempt of `query` still performs one transport call and
succeeds, because `query` never routes the call through
`CircuitBreaker.execute`. -/
theorem query_ignores_circuit_breaker :
    (cbOpenFresh.status = CBStatus.opened ∧
      (1000 : ℤ) - cbOpenFresh.lastFailureTime < RECOVERY_TIMEOUT) ∧
    (queryAttempt cbOpenFresh true true (.httpOk ⟨"hola", 42, "ES"⟩) "es" 7).transportCalls
      = 1 ∧
    (execute (A := Unit) (E := Unit) cbOpenFresh 1000 (Except.ok ())).2.2 = false := by
  refine ⟨⟨rfl, by decide⟩, rfl, rfl⟩

/-- C2 amended: `CircuitBreaker.execute` itself, in an Open state with
less than recoveryTimeout elapsed since lastFailureTime, rejects with a
circuit-open error, never invokes the operation and leaves the state
unchanged; but the public translate operation does not route its
transport call through `CircuitBreaker.execute` — every query attempt
that passes admission control performs the transport call, whatever any
breaker's state. -/
theorem circuitBreaker_execute_open_rejects (s : CBState) (now : ℤ)
    (outcome : Except Unit Unit) (h1 : s.status = CBStatus.opened)
    (h2 : now - s.lastFailureTime < RECOVERY_TIMEOUT) :
    execute s now outcome = (s, ExecResult.circuitOpen, false) ∧
    ∀ (cb : CBState) (fetch : FetchOut) (tl : String) (rid : ℕ),
      (queryAttempt cb true true fetch tl rid).transportCalls = 1 := by
  constructor
  · unfold execute
    rw [h1]
    simp only []
    rw [if_neg (by omega)]
  · intro cb fetch tl rid
    unfold queryAttempt
    rw [if_neg (by simp)]
    cases fetch <;> rfl

/-- C2 amended witness: the theorem at the concrete Open state
⟨Open, 5, 0, 0⟩, clock 1000 and a JSON-parse-failure fetch outcome. -/
theorem circuitBreaker_execute_open_rejects_witness :
    execute (A := Unit) (E := Unit) cbOpenFresh 1000 (Except.ok ())
      = (cbOpenFresh, ExecResult.circuitOpen, false) ∧
    (queryAttempt cbOpenFresh true true FetchOut.jsonErr "en" 1).transportCalls = 1 :=
  ⟨(circuitBreaker_execute_open_rejects cbOpenFresh 1000 (Except.ok ()) rfl (by decide)).1,
   (circuitBreaker_execute_open_rejects cbOpenFresh 1000 (Except.ok ()) rfl (by decide)).2
     cbOpenFresh FetchOut.jsonErr "en" 1⟩

/-! ## Rate limiter (src/src/lib/rateLimit.ts lines 36-161)

`checkRateLimit` runs a token bucket per subject with an in-memory cache
(fresh for CACHE_TTL = 5000 ms) over a KV entry.  Its limits come from
`getDynamicRateLimits` (rateLimit.ts lines 36-39), which reads `.length`
of the value returned by the async `getProxyEndpoints`
(proxyManager.ts line 34) without awaiting it: the property access on the
Promise yields `undefined`, and `calculateDynamicRateLimits(undefined)`
(the config module, proxyManager.ts lines 151-168) computes
`undefined * 8 * 60 = NaN` for both the capacity and the refill rate, for
every env.  JavaScript numbers are therefore modelled as `Option ℚ`:
`none` stands for undefined/NaN (undefined coerces to NaN in arithmetic),
arithmetic and `Math.min` propagate `none`, and every `<` comparison
involving NaN is false.  Instants (`Date.now()` values) are always real
and stay plain ℚ. -/

/-- A JavaScript number: `none` models undefined/NaN, `some q` a real
value. -/
abbrev JSNum := Option ℚ

def jsAdd : JSNum → JSNum → JSNum
  | some a, some b => some (a + b)
  | _, _ => none

def jsSub : JSNum → JSNum → JSNum
  | some a, some b => some (a - b)
  | _, _ => none

def jsMul : JSNum → JSNum → JSNum
  | some a, some b => some (a * b)
  | _, _ => none

/-- Division; the divisor is a nonzero literal (1000 or 60) at every use
site, so the zero case (JavaScript Infinity) is never reached. -/
def jsDiv : JSNum → JSNum → JSNum
  | some a, some b => if b = 0 then none else some (a / b)
  | _, _ => none

/-- `Math.min`: NaN if either argument is NaN. -/
def jsMin : JSNum → JSNum → JSNum
  | some a, some b => some (min a b)
  | _, _ => none

/-- JavaScript `<`: false whenever either side is NaN. -/
def jsLt : JSNum → JSNum → Bool
  | some a, some b => decide (a < b)
  | _, _ => false

/-- Model of `calculateDynamicRateLimits` (proxyManager.ts lines 151-168),
returning (TOKENS_PER_MINUTE, REFILL_RATE).  `proxyCount === 0` is strict
equality, false for undefined. -/
def calculateDynamicRateLimits (proxyCount : JSNum) : JSNum × JSNum :=
  if proxyCount = some 0 then
    (some 480, jsDiv (some 480) (some 60))
  else
    (jsMul (jsMul proxyCount (some 8)) (some 60),
     jsDiv (jsMul (jsMul proxyCount (some 8)) (some 60)) (some 60))

/-- The `.length` read by `getDynamicRateLimits` (rateLimit.ts line 38):
`getProxyEndpoints` is async and not awaited, so the value is a Promise
and the property access yields undefined, whatever the env holds. -/
def promiseLength : JSNum := none

/-- Model of `getDynamicRateLimits` (rateLimit.ts lines 36-39). -/
def getDynamicRateLimits : JSNum × JSNum :=
  calculateDynamicRateLimits promiseLength

structure RateLimitEntry where
  tokens : JSNum
  lastRefill : ℚ
deriving DecidableEq

structure RateLimitCached where
  tokens : JSNum
  lastRefill : ℚ
  lastUpdate : ℚ
deriving DecidableEq

structure RLState where
  cache : Option RateLimitCached
  kv : Option RateLimitEntry
deriving DecidableEq

def RL_CACHE_TTL : ℚ := 5000

/-- The refill computation `Math.min(maxTokens, tokens + timePassed *
refillRate)` with `timePassed = (now - lastRefill) / 1000`
(rateLimit.ts lines 94-98 and 108-112). -/
def refillTokens (maxTokens tokens : JSNum) (lastRefill : ℚ) (rate : JSNum)
    (now : ℚ) : JSNum :=
  jsMin maxTokens
    (jsAdd tokens (jsMul (jsDiv (some (now - lastRefill)) (some 1000)) rate))

def readKvBucket (maxTokens rate : JSNum) (kv : Option RateLimitEntry)
    (now : ℚ) : JSNum :=
  match kv with
  | some e => refillTokens maxTokens e.tokens e.lastRefill rate now
  | none => maxTokens

/-- The token count `checkRateLimit` works with: the fresh memory cache
if `now - lastUpdate < CACHE_TTL`, else the KV entry, else a full
bucket. -/
def readBucket (maxTokens rate : JSNum) (st : RLState) (now : ℚ) : JSNum :=
  match st.cache with
  | some c =>
    if now - c.lastUpdate < RL_CACHE_TTL then
      refillTokens maxTokens c.tokens c.lastRefill rate now
    else readKvBucket maxTokens rate st.kv now
  | none => readKvBucket maxTokens rate st.kv now

/-- Model of `checkRateLimit` (rateLimit.ts lines 79-161): limits from
`getDynamicRateLimits`; deny without decrement when `tokens < 1`, else
consume one token; in both cases persist `(tokens, lastRefill := now)` to
the cache (with `lastUpdate := now`) and to KV. -/
def checkRateLimit (st : RLState) (now : ℚ) : Bool × RLState :=
  if jsLt (readBucket getDynamicRateLimits.1 getDynamicRateLimits.2 st now)
      (some 1) then
    (false,
     ⟨some ⟨readBucket getDynamicRateLimits.1 getDynamicRateLimits.2 st now, now, now⟩,
      some ⟨readBucket getDynamicRateLimits.1 getDynamicRateLimits.2 st now, now⟩⟩)
  else
    (true,
     ⟨some ⟨jsSub (readBucket getDynamicRateLimits.1 getDynamicRateLimits.2 st now)
        (some 1), now, now⟩,
      some ⟨jsSub (readBucket getDynamicRateLimits.1 getDynamicRateLimits.2 st now)
        (some 1), now⟩⟩)

/-- `n` consecutive `checkRateLimit` calls at one instant, returning the
list of decisions and the final state. -/
def checkRateLimitN : ℕ → RLState → ℚ → List Bool × RLState
  | 0, st, _ => ([], st)
  | n + 1, st, now =>
    ((checkRateLimit st now).1
        :: (checkRateLimitN n (checkRateLimit st now).2 now).1,
     (checkRateLimitN n (checkRateLimit st now).2 now).2)

def rlEmpty : RLState := ⟨none, none⟩

theorem jsMin_nan_left (x : JSNum) : jsMin none x = none := by
  cases x <;> rfl

/-- With a NaN capacity every read of the bucket is NaN, on each of the
three read paths. -/
theorem readBucket_nan (rate : JSNum) (st : RLState) (now : ℚ) :
    readBucket none rate st now = none := by
  obtain ⟨cache, kv⟩ := st
  unfold readBucket readKvBucket refillTokens
  cases cache <;> cases kv <;> dsimp only <;>
    first
      | rfl
      | (split_ifs <;> first
          | exact jsMin_nan_left _
          | rfl)

/-- C8 evaluated on the code: `getDynamicRateLimits` reads `.length` of
the un-awaited Promise returned by the async `getProxyEndpoints`, so the
bucket capacity and refill rate are NaN for every env; `NaN < 1` is
false, so the deny branch of `checkRateLimit` is unreachable and every
admission check — in particular the (N+1)-th from a "full" bucket — is
allowed.  The claimed denial (which the repository's own test "should
deny requests exceeding rate limit" also expects) never happens. -/
theorem checkRateLimit_never_denies :
    getDynamicRateLimits = (none, none) ∧
    (∀ (st : RLState) (now : ℚ), (checkRateLimit st now).1 = true) ∧
    (checkRateLimitN 3 rlEmpty 0).1 = [true, true, true] := by
  have hall : ∀ (st : RLState) (now : ℚ), (checkRateLimit st now).1 = true := by
    intro st now
    unfold checkRateLimit
    rw [show getDynamicRateLimits.1 = none from rfl, readBucket_nan]
    rfl
  refine ⟨rfl, hall, ?_⟩
  simp [checkRateLimitN, hall]

/-! ## Cache store (src/src/lib/cache.ts lines 66-101)

`getCachedTranslation` reads the in-memory tier, then the KV tier, each
guarded by `Date.now() - entry.timestamp < CACHE_TTL * 1000`.  The two
tiers' contents at the key and the clock are explicit parameters; the KV
backfill only copies the returned entry and does not affect the result,
so the model returns the entry (or absence). -/

structure CacheEntry where
  data : String
  timestamp : ℤ
  source_lang : String
  target_lang : String
  id : ℕ
deriving DecidableEq

def CACHE_TTL : ℤ := 3600

/-- The KV fallback of `getCachedTranslation` (cache.ts lines 81-94). -/
def kvLookup (kv : Option CacheEntry) (now : ℤ) : Option CacheEntry :=
  match kv with
  | some k => if now - k.timestamp < CACHE_TTL * 1000 then some k else none
  | none => none

/-- Model of `getCachedTranslation` (cache.ts lines 66-101). -/
def getCachedTranslation (mem kv : Option CacheEntry) (now : ℤ) : Option CacheEntry :=
  match mem with
  | some m =>
    if now - m.timestamp < CACHE_TTL * 1000 then some m
    else kvLookup kv now
  | none => kvLookup kv now

theorem kvLookup_fresh (kv : Option CacheEntry) (now : ℤ) (e : CacheEntry)
    (h : kvLookup kv now = some e) : now - e.timestamp < CACHE_TTL * 1000 := by
  cases kv with
  | none => simp [kvLookup] at h
  | some k =>
    unfold kvLookup at h
    dsimp only at h
    split_ifs at h with hf
    cases h
    exact hf

theorem kvLookup_stale (kv : Option CacheEntry) (now : ℤ)
    (h : ∀ k, kv = some k → CACHE_TTL * 1000 ≤ now - k.timestamp) :
    kvLookup kv now = none := by
  cases kv with
  | none => rfl
  | some k =>
    unfold kvLookup
    dsimp only
    rw [if_neg (by linarith [h k rfl])]

/-- C9: the cache read returns an entry only when it is strictly younger
than the TTL, and when every stored entry for the key (memory tier and
durable tier) is at least TTL old the read returns absent, exactly as if
no entry existed. -/
theorem getCachedTranslation_ttl (mem kv : Option CacheEntry) (now : ℤ) :
    (∀ e, getCachedTranslation mem kv now = some e →
      now - e.timestamp < CACHE_TTL * 1000) ∧
    ((∀ m, mem = some m → CACHE_TTL * 1000 ≤ now - m.timestamp) →
      (∀ k, kv = some k → CACHE_TTL * 1000 ≤ now - k.timestamp) →
      getCachedTranslation mem kv now = getCachedTranslation none none now) := by
  constructor
  · intro e he
    cases mem with
    | none => exact kvLookup_fresh kv now e he
    | some m =>
      unfold getCachedTranslation at he
      dsimp only at he
      split_ifs at he with hf
      · cases he; exact hf
      · exact kvLookup_fresh kv now e he
  · intro hm hk
    cases mem with
    | none =>
      show kvLookup kv now = kvLookup none now
      rw [kvLookup_stale kv now hk]
      rfl
    | some m =>
      unfold getCachedTranslation
      dsimp only
      rw [if_neg (by linarith [hm m rfl]), kvLookup_stale kv now hk]
      rfl

/-- C9 witness: an entry written at time 0 and read at time 3600000 ms is
exactly TTL old and treated as absent; an entry written at 3000000 and
read at 3600000 is fresh and its age is below the TTL. -/
theorem getCachedTranslation_ttl_witness :
    getCachedTranslation (some ⟨"hello", 0, "EN", "ZH", 5⟩)
      (some ⟨"hello", 0, "EN", "ZH", 5⟩) 3600000
      = getCachedTranslation none none 3600000 ∧
    (3600000 : ℤ) - (3000000 : ℤ) < CACHE_TTL * 1000 := by
  constructor
  · exact (getCachedTranslation_ttl _ _ _).2
      (by intro m hm; cases hm; decide) (by intro k hk; cases hk; decide)
  · exact (getCachedTranslation_ttl
      (some ⟨"hello", 3000000, "EN", "ZH", 5⟩) none 3600000).1
      ⟨"hello", 3000000, "EN", "ZH", 5⟩ (by decide)

end DeepLX
